import Mathlib

/-!
Verification of the browser-side API client of the hostel-management
repository (src/FRONTEND/api-client.js).  The JavaScript module is embedded
shallowly: JSON values become the inductive `JVal`, the module-scoped
session variables (`authToken`, `currentUser`) and the two localStorage
keys become explicit state records, `fetch` is modelled by a
`FetchOutcome` input describing what the network did, and every function
of the source file becomes a pure Lean function over that state.
-/

/-- JSON values, as produced by `JSON.parse` / consumed by `JSON.stringify`. -/
inductive JVal where
  | null : JVal
  | bool (b : Bool) : JVal
  | num (n : Int) : JVal
  | str (s : String) : JVal
  | arr (xs : List JVal) : JVal
  | obj (fs : List (String × JVal)) : JVal

/-- JavaScript truthiness of a JSON value (`if (v)`). -/
def jsTruthy : JVal → Bool
  | .null => false
  | .bool b => b
  | .num n => !(n == 0)
  | .str s => !(s == "")
  | .arr _ => true
  | .obj _ => true

/-- Truthiness of a possibly-`undefined` value (`undefined` is falsy). -/
def jsTruthyU : Option JVal → Bool
  | none => false
  | some v => jsTruthy v

/-- Property lookup `v.k`: `none` models JavaScript `undefined`. -/
def lookupField : List (String × JVal) → String → Option JVal
  | [], _ => none
  | (k, v) :: fs, key => if k == key then some v else lookupField fs key

/-- Evaluation of `v[k]` on a JSON value; non-objects have no own properties here. -/
def jGet : JVal → String → Option JVal
  | .obj fs, k => lookupField fs k
  | _, _ => none

/-- String coercion as used by template literals and `localStorage.setItem`. -/
def jsToString : JVal → String
  | .null => "null"
  | .bool true => "true"
  | .bool false => "false"
  | .num n => toString n
  | .str s => s
  | .arr _ => "[object Array]"
  | .obj _ => "[object Object]"

/-- Escape one character the way `JSON.stringify` escapes string contents. -/
def escChar (c : Char) : String :=
  if c.toNat = 34 then "\\\""
  else if c.toNat = 92 then "\\\\"
  else if c.toNat = 10 then "\\n"
  else if c.toNat = 13 then "\\r"
  else if c.toNat = 9 then "\\t"
  else if c.toNat = 8 then "\\b"
  else if c.toNat = 12 then "\\f"
  else String.singleton c

/-- Escape every character of a string for JSON output. -/
def escStr : List Char → String
  | [] => ""
  | c :: cs => escChar c ++ escStr cs

/-- Quote a string as a JSON string literal. -/
def quoteStr (s : String) : String :=
  "\"" ++ escStr s.toList ++ "\""

mutual

/-- Model of `JSON.stringify` restricted to the JSON fragment the client exchanges. -/
def jStringify : JVal → String
  | .null => "null"
  | .bool true => "true"
  | .bool false => "false"
  | .num n => toString n
  | .str s => quoteStr s
  | .arr xs => "[" ++ stringifyArr xs ++ "]"
  | .obj fs => "\x7b" ++ stringifyObj fs ++ "\x7d"

/-- Comma-separated serialization of array elements. -/
def stringifyArr : List JVal → String
  | [] => ""
  | [x] => jStringify x
  | x :: xs => jStringify x ++ "," ++ stringifyArr xs

/-- Comma-separated serialization of object members. -/
def stringifyObj : List (String × JVal) → String
  | [] => ""
  | [(k, v)] => quoteStr k ++ ":" ++ jStringify v
  | (k, v) :: fs => quoteStr k ++ ":" ++ jStringify v ++ "," ++ stringifyObj fs

end

/-- Drop leading JSON whitespace. -/
def skipWs : List Char → List Char
  | [] => []
  | c :: cs =>
    if c.toNat = 32 ∨ c.toNat = 9 ∨ c.toNat = 10 ∨ c.toNat = 13 then skipWs cs
    else c :: cs

/-- Consume an exact keyword, returning the remaining input. -/
def eatKeyword : List Char → List Char → Option (List Char)
  | [], cs => some cs
  | _ :: _, [] => none
  | k :: ks, c :: cs => if k == c then eatKeyword ks cs else none

/-- Decode one escape character inside a JSON string literal. -/
def unescChar (c : Char) : Option Char :=
  if c.toNat = 34 then some (Char.ofNat 34)
  else if c.toNat = 92 then some (Char.ofNat 92)
  else if c.toNat = 47 then some (Char.ofNat 47)
  else if c.toNat = 110 then some (Char.ofNat 10)
  else if c.toNat = 114 then some (Char.ofNat 13)
  else if c.toNat = 116 then some (Char.ofNat 9)
  else if c.toNat = 98 then some (Char.ofNat 8)
  else if c.toNat = 102 then some (Char.ofNat 12)
  else none

/-- Parse the body of a JSON string literal (after the opening quote). -/
def pStr : List Char → Option (String × List Char)
  | [] => none
  | c :: cs =>
    if c.toNat = 34 then some ("", cs)
    else if c.toNat = 92 then
      match cs with
      | [] => none
      | e :: cs2 =>
        match unescChar e with
        | none => none
        | some ch =>
          match pStr cs2 with
          | none => none
          | some (s, rest) => some (String.singleton ch ++ s, rest)
    else
      match pStr cs with
      | none => none
      | some (s, rest) => some (String.singleton c ++ s, rest)

/-- Numeric value of a decimal digit character. -/
def digitVal (c : Char) : Option Nat :=
  if 48 ≤ c.toNat ∧ c.toNat ≤ 57 then some (c.toNat - 48) else none

/-- Consume a run of decimal digits, accumulating their value. -/
def pDigitsAux : List Char → Nat → Nat × List Char
  | [], acc => (acc, [])
  | c :: cs, acc =>
    match digitVal c with
    | some d => pDigitsAux cs (acc * 10 + d)
    | none => (acc, c :: cs)

/-- Parse a (sign-prefixed) integer literal. -/
def pNum : List Char → Option (Int × List Char)
  | [] => none
  | c :: cs =>
    if c.toNat = 45 then
      match cs with
      | [] => none
      | d :: ds =>
        match digitVal d with
        | none => none
        | some v =>
          let (n, rest) := pDigitsAux ds v
          some (-(Int.ofNat n), rest)
    else
      match digitVal c with
      | none => none
      | some v =>
        let (n, rest) := pDigitsAux cs v
        some (Int.ofNat n, rest)

mutual

/-- Fuel-indexed recursive-descent parser for one JSON value. -/
def pVal : Nat → List Char → Option (JVal × List Char)
  | 0, _ => none
  | _ + 1, [] => none
  | fuel + 1, c :: cs =>
    if c.toNat = 34 then
      match pStr cs with
      | none => none
      | some (s, rest) => some (.str s, rest)
    else if c.toNat = 123 then
      match skipWs cs with
      | d :: ds =>
        if d.toNat = 125 then some (.obj [], ds)
        else
          match pFields fuel (d :: ds) with
          | none => none
          | some (fs, rest) => some (.obj fs, rest)
      | [] => none
    else if c.toNat = 91 then
      match skipWs cs with
      | d :: ds =>
        if d.toNat = 93 then some (.arr [], ds)
        else
          match pElems fuel (d :: ds) with
          | none => none
          | some (xs, rest) => some (.arr xs, rest)
      | [] => none
    else
      match eatKeyword ("null".toList) (c :: cs) with
      | some rest => some (.null, rest)
      | none =>
        match eatKeyword ("true".toList) (c :: cs) with
        | some rest => some (.bool true, rest)
        | none =>
          match eatKeyword ("false".toList) (c :: cs) with
          | some rest => some (.bool false, rest)
          | none =>
            match pNum (c :: cs) with
            | none => none
            | some (n, rest) => some (.num n, rest)

/-- Parse the members of an object, up to and including the closing brace. -/
def pFields : Nat → List Char → Option (List (String × JVal) × List Char)
  | 0, _ => none
  | fuel + 1, cs =>
    match skipWs cs with
    | [] => none
    | c :: cs2 =>
      if c.toNat = 34 then
        match pStr cs2 with
        | none => none
        | some (k, rest1) =>
          match skipWs rest1 with
          | colon :: rest2 =>
            if colon.toNat = 58 then
              match pVal fuel (skipWs rest2) with
              | none => none
              | some (v, rest3) =>
                match skipWs rest3 with
                | sep :: rest4 =>
                  if sep.toNat = 44 then
                    match pFields fuel rest4 with
                    | none => none
                    | some (fs, rest5) => some ((k, v) :: fs, rest5)
                  else if sep.toNat = 125 then some ([(k, v)], rest4)
                  else none
                | [] => none
            else none
          | [] => none
      else none

/-- Parse the elements of an array, up to and including the closing bracket. -/
def pElems : Nat → List Char → Option (List JVal × List Char)
  | 0, _ => none
  | fuel + 1, cs =>
    match pVal fuel (skipWs cs) with
    | none => none
    | some (v, rest) =>
      match skipWs rest with
      | sep :: rest2 =>
        if sep.toNat = 44 then
          match pElems fuel rest2 with
          | none => none
          | some (xs, rest3) => some (v :: xs, rest3)
        else if sep.toNat = 93 then some ([v], rest2)
        else none
      | [] => none

end

/-- Model of `JSON.parse`: `none` models a thrown `SyntaxError`. -/
def jParse (s : String) : Option JVal :=
  match pVal (2 * s.length + 4) (skipWs s.toList) with
  | none => none
  | some (v, rest) =>
    match skipWs rest with
    | [] => some v
    | _ :: _ => none


/-- In-memory module state: `authToken` and `currentUser` of api-client.js.
`none` models JavaScript `null`; a token set by `login`/`register` is the
raw `result.access` value, so it is kept as a `JVal`. -/
structure Session where
  authToken : Option JVal
  currentUser : Option JVal

/-- The two localStorage keys the client uses (`access_token`, `user`);
`none` means the key is absent (`getItem` returns `null`). -/
structure Storage where
  access_token : Option String
  user : Option String

/-- The client-visible mutable world: module state plus localStorage. -/
structure World where
  session : Session
  storage : Storage

/-- The empty session (`authToken = null`, `currentUser = null`). -/
def emptySession : Session := { authToken := none, currentUser := none }

/-- Empty localStorage. -/
def emptyStorage : Storage := { access_token := none, user := none }

/-- Fresh tab with empty storage. -/
def emptyWorld : World := { session := emptySession, storage := emptyStorage }

/-- A simulated page reload: module state resets, localStorage survives. -/
def reload (w : World) : World := { session := emptySession, storage := w.storage }

/-- Truthiness of a `getItem` result (`null` and `""` are falsy). -/
def strTruthy : Option String → Bool
  | none => false
  | some s => !(s == "")

/-- The function `logoutUser()`: clears both module variables and removes both keys. -/
def logoutUser (_w : World) : World :=
  { session := { authToken := none, currentUser := none },
    storage := { access_token := none, user := none } }

/-- Result of `initAuth()`: the world afterwards, and whether the
uncaught `JSON.parse` exception escaped. -/
structure InitOutcome where
  world : World
  threw : Bool

/-- The function `initAuth()`: reads both keys; if both are truthy, assigns the token
and then parses the profile (the parse may throw, after the token was
already assigned).  The DOM side effect of `updateUIAfterLogin` is not
modelled. -/
def initAuth (w : World) : InitOutcome :=
  if strTruthy w.storage.access_token && strTruthy w.storage.user then
    let token := w.storage.access_token.getD ""
    let user := w.storage.user.getD ""
    match jParse user with
    | some p =>
      { world := { w with session := { authToken := some (.str token), currentUser := some p } },
        threw := false }
    | none =>
      { world := { w with session := { w.session with authToken := some (.str token) } },
        threw := true }
  else
    { world := w, threw := false }

/-- The fixed URL prefix. -/
def API_BASE : String := "/api"

/-- The request handed to `fetch`: URL, method, header list, optional body. -/
structure HttpRequest where
  url : String
  method : String
  headers : List (String × String)
  body : Option String

/-- Whether `response.json()` succeeded; `fail` carries the error message. -/
inductive BodyParse where
  | ok (v : JVal) : BodyParse
  | fail (msg : String) : BodyParse

/-- What the network did for one `fetch` call: rejected at transport
level, or produced a response with a status and a body-parse outcome. -/
inductive FetchOutcome where
  | networkError (msg : String) : FetchOutcome
  | response (status : Nat) (body : BodyParse) : FetchOutcome

/-- One `console.error` record emitted by `apiCall`. -/
inductive ConsoleEntry where
  | apiError (body : JVal) : ConsoleEntry
  | fetchError (msg : String) : ConsoleEntry

/-- Everything observable about one `apiCall` invocation. -/
structure ApiOutcome where
  request : HttpRequest
  result : Option JVal
  world : World
  navigatedTo : Option String
  alerts : List String
  consoleLog : Option ConsoleEntry

/-- The `options` object built at the top of `apiCall` (headers + body). -/
def buildRequest (w : World) (endpoint method : String) (data : JVal) : HttpRequest :=
  { url := API_BASE ++ endpoint
    method := method
    headers := [("Content-Type", "application/json")] ++
      (match w.session.authToken with
       | some v => if jsTruthy v then [("Authorization", "Bearer " ++ jsToString v)] else []
       | none => [])
    body := if jsTruthy data then some (jStringify data) else none }

/-- The function `apiCall(endpoint, method, data)`: builds the request, then models the
try block — a transport rejection or a `response.json()` rejection lands in
the catch (alert + log + null); otherwise status 401 logs out and
redirects, other non-2xx statuses log the parsed body, and a 2xx resolves
to the parsed body. -/
def apiCall (w : World) (endpoint method : String) (data : JVal) (net : FetchOutcome) : ApiOutcome :=
  let req := buildRequest w endpoint method data
  match net with
  | .networkError msg =>
    { request := req, result := none, world := w, navigatedTo := none,
      alerts := ["Connection error: " ++ msg],
      consoleLog := some (.fetchError msg) }
  | .response status body =>
    match body with
    | .fail msg =>
      { request := req, result := none, world := w, navigatedTo := none,
        alerts := ["Connection error: " ++ msg],
        consoleLog := some (.fetchError msg) }
    | .ok result =>
      if status = 401 then
        { request := req, result := none, world := logoutUser w,
          navigatedTo := some "/login.html", alerts := [], consoleLog := none }
      else if 200 ≤ status ∧ status ≤ 299 then
        { request := req, result := some result, world := w, navigatedTo := none,
          alerts := [], consoleLog := none }
      else
        { request := req, result := none, world := w, navigatedTo := none,
          alerts := [], consoleLog := some (.apiError result) }

/-- Look a header up in a request. -/
def lookupHeader (req : HttpRequest) (k : String) : Option String :=
  (req.headers.find? (fun p => p.1 == k)).map (fun p => p.2)

/-- The Authorization header of a request. -/
def authHeaderOf (req : HttpRequest) : Option String :=
  lookupHeader req "Authorization"

/-- The body object `register` builds from its four arguments. -/
def registerBody (email password name role : String) : JVal :=
  .obj [("email", .str email), ("password", .str password),
        ("name", .str name), ("role", .str role)]

/-- The body object `login` builds from its two arguments. -/
def loginBody (email password : String) : JVal :=
  .obj [("email", .str email), ("password", .str password)]

/-- Return value of `login`/`register` plus the observable call outcome. -/
structure AuthResult where
  ret : Bool
  api : ApiOutcome

/-- The test `result && result.access` — the success test shared by both auth calls. -/
def authSuccess : Option JVal → Bool
  | none => false
  | some r => jsTruthy r && jsTruthyU (jGet r "access")

/-- After a successful auth response, store token and user in memory and
in localStorage (`setItem` coerces the token; the profile is
`JSON.stringify`-ed, with an absent `user` field stored as "undefined"). -/
def storeAuth (r : JVal) : World :=
  let tok := (jGet r "access").getD .null
  let usr := jGet r "user"
  { session := { authToken := some tok, currentUser := usr }
    storage := { access_token := some (jsToString tok)
                 user := some (match usr with
                               | some u => jStringify u
                               | none => "undefined") } }

/-- The `if (result && result.access)` post-processing that `register` and
`login` share verbatim: on success store the session and return `true`,
otherwise return `false` and leave the call outcome as it is. -/
def authStep (api : ApiOutcome) : AuthResult :=
  match api.result with
  | some r =>
    if jsTruthy r && jsTruthyU (jGet r "access") then
      { ret := true, api := { api with world := storeAuth r } }
    else
      { ret := false, api := api }
  | none => { ret := false, api := api }

/-- Wrapper `register(email, password, name, role)`. -/
def register (w : World) (email password name role : String) (net : FetchOutcome) : AuthResult :=
  authStep (apiCall w "/auth/register/" "POST" (registerBody email password name role) net)

/-- Wrapper `login(email, password)`. -/
def login (w : World) (email password : String) (net : FetchOutcome) : AuthResult :=
  authStep (apiCall w "/auth/login/" "POST" (loginBody email password) net)

/-- Wrapper `getAllHostels()`. -/
def getAllHostels (w : World) (net : FetchOutcome) : ApiOutcome :=
  apiCall w "/hostels/" "GET" .null net

/-- Wrapper `getHostelDetail(hostelId)`. -/
def getHostelDetail (w : World) (hostelId : Nat) (net : FetchOutcome) : ApiOutcome :=
  apiCall w ("/hostels/" ++ toString hostelId ++ "/") "GET" .null net

/-- Wrapper `addHostel(data)`. -/
def addHostel (w : World) (data : JVal) (net : FetchOutcome) : ApiOutcome :=
  apiCall w "/hostels/add/" "POST" data net

/-- Wrapper `updateHostel(hostelId, data)`. -/
def updateHostel (w : World) (hostelId : Nat) (data : JVal) (net : FetchOutcome) : ApiOutcome :=
  apiCall w ("/hostels/" ++ toString hostelId ++ "/update/") "PUT" data net

/-- Wrapper `getMyHostels()`. -/
def getMyHostels (w : World) (net : FetchOutcome) : ApiOutcome :=
  apiCall w "/hostels/my/" "GET" .null net

/-- Wrapper `getHostelRooms(hostelId)`. -/
def getHostelRooms (w : World) (hostelId : Nat) (net : FetchOutcome) : ApiOutcome :=
  apiCall w ("/rooms/hostel/" ++ toString hostelId ++ "/") "GET" .null net

/-- Wrapper `addRoom(data)`. -/
def addRoom (w : World) (data : JVal) (net : FetchOutcome) : ApiOutcome :=
  apiCall w "/rooms/add/" "POST" data net

/-- Wrapper `updateRoom(roomId, data)`. -/
def updateRoom (w : World) (roomId : Nat) (data : JVal) (net : FetchOutcome) : ApiOutcome :=
  apiCall w ("/rooms/" ++ toString roomId ++ "/update/") "PUT" data net

/-- Wrapper `bookHostel(data)`. -/
def bookHostel (w : World) (data : JVal) (net : FetchOutcome) : ApiOutcome :=
  apiCall w "/bookings/book/" "POST" data net

/-- Wrapper `getMyBookings()`. -/
def getMyBookings (w : World) (net : FetchOutcome) : ApiOutcome :=
  apiCall w "/bookings/my/" "GET" .null net

/-- Wrapper `getOwnerBookings(hostelId)`. -/
def getOwnerBookings (w : World) (hostelId : Nat) (net : FetchOutcome) : ApiOutcome :=
  apiCall w ("/bookings/owner/" ++ toString hostelId ++ "/") "GET" .null net

/-- Wrapper `approveBooking(bookingId, data)`. -/
def approveBooking (w : World) (bookingId : Nat) (data : JVal) (net : FetchOutcome) : ApiOutcome :=
  apiCall w ("/bookings/" ++ toString bookingId ++ "/approve/") "POST" data net

/-- Wrapper `rejectBooking(bookingId, data)`. -/
def rejectBooking (w : World) (bookingId : Nat) (data : JVal) (net : FetchOutcome) : ApiOutcome :=
  apiCall w ("/bookings/" ++ toString bookingId ++ "/reject/") "POST" data net

/-- Wrapper `reportIssue(data)`. -/
def reportIssue (w : World) (data : JVal) (net : FetchOutcome) : ApiOutcome :=
  apiCall w "/issues/report/" "POST" data net

/-- Wrapper `getOwnerIssues(hostelId)`. -/
def getOwnerIssues (w : World) (hostelId : Nat) (net : FetchOutcome) : ApiOutcome :=
  apiCall w ("/issues/owner/" ++ toString hostelId ++ "/") "GET" .null net

/-- Wrapper `resolveIssue(issueId, data)`. -/
def resolveIssue (w : World) (issueId : Nat) (data : JVal) (net : FetchOutcome) : ApiOutcome :=
  apiCall w ("/issues/" ++ toString issueId ++ "/resolve/") "POST" data net

/-- Wrapper `sendNotice(data)`. -/
def sendNotice (w : World) (data : JVal) (net : FetchOutcome) : ApiOutcome :=
  apiCall w "/notices/send/" "POST" data net

/-- Wrapper `getNotices(hostelId)`. -/
def getNotices (w : World) (hostelId : Nat) (net : FetchOutcome) : ApiOutcome :=
  apiCall w ("/notices/" ++ toString hostelId ++ "/") "GET" .null net

/-- Wrapper `getMyPayments()`. -/
def getMyPayments (w : World) (net : FetchOutcome) : ApiOutcome :=
  apiCall w "/payments/my/" "GET" .null net

/-- Wrapper `makePayment(data)`. -/
def makePayment (w : World) (data : JVal) (net : FetchOutcome) : ApiOutcome :=
  apiCall w "/payments/make/" "POST" data net

/-- Wrapper `recordPayment(data)`. -/
def recordPayment (w : World) (data : JVal) (net : FetchOutcome) : ApiOutcome :=
  apiCall w "/payments/record/" "POST" data net

/-- Wrapper `getHostelPayments(hostelId)`. -/
def getHostelPayments (w : World) (hostelId : Nat) (net : FetchOutcome) : ApiOutcome :=
  apiCall w ("/payments/hostel/" ++ toString hostelId ++ "/") "GET" .null net

/-- Wrapper `getStudentDashboard()`. -/
def getStudentDashboard (w : World) (net : FetchOutcome) : ApiOutcome :=
  apiCall w "/dashboard/student/" "GET" .null net

/-- Wrapper `getOwnerDashboard()`. -/
def getOwnerDashboard (w : World) (net : FetchOutcome) : ApiOutcome :=
  apiCall w "/dashboard/owner/" "GET" .null net

/-- Wrapper `getHostelStats(hostelId)`. -/
def getHostelStats (w : World) (hostelId : Nat) (net : FetchOutcome) : ApiOutcome :=
  apiCall w ("/analytics/hostel/" ++ toString hostelId ++ "/") "GET" .null net

/-- Does the fetch outcome deliver a 401 whose body parsed as JSON?  That
is the only case in which `apiCall` reaches the logout branch. -/
def is401Json : FetchOutcome → Bool
  | .response 401 (.ok _) => true
  | _ => false

/-! ### General lemmas about `apiCall` -/

/-- Every branch of `apiCall` hands the same built request to `fetch`. -/
theorem apiCall_request (w : World) (endpoint method : String) (data : JVal)
    (net : FetchOutcome) :
    (apiCall w endpoint method data net).request = buildRequest w endpoint method data := by
  cases net with
  | networkError msg => rfl
  | response status body =>
    cases body with
    | fail msg => rfl
    | ok r =>
      simp only [apiCall]
      split
      · rfl
      · split <;> rfl

/-- A 2xx (non-401) response resolves to the parsed body with no side effect. -/
theorem apiCall_ok (w : World) (endpoint method : String) (data : JVal)
    (status : Nat) (r : JVal) (h401 : status ≠ 401)
    (hok : 200 ≤ status ∧ status ≤ 299) :
    apiCall w endpoint method data (.response status (.ok r)) =
      { request := buildRequest w endpoint method data, result := some r, world := w,
        navigatedTo := none, alerts := [], consoleLog := none } := by
  simp only [apiCall]
  rw [if_neg h401, if_pos hok]

/-- Lemma: `authStep` never changes the request of the outcome it post-processes. -/
theorem authStep_request (api : ApiOutcome) :
    (authStep api).api.request = api.request := by
  obtain ⟨req, res, wld, nav, al, cl⟩ := api
  cases res with
  | none => rfl
  | some r =>
    simp only [authStep]
    split <;> rfl

/-- The boolean `authStep` returns is exactly `result && result.access`. -/
theorem authStep_ret (api : ApiOutcome) :
    (authStep api).ret = authSuccess api.result := by
  obtain ⟨req, res, wld, nav, al, cl⟩ := api
  cases res with
  | none => rfl
  | some r =>
    simp only [authStep, authSuccess]
    split
    · rename_i h
      exact h.symm
    · rename_i h
      rw [Bool.not_eq_true] at h
      exact h.symm

/-- When the success test fails, `authStep` adds no mutation of its own. -/
theorem authStep_frame (api : ApiOutcome) (h : authSuccess api.result = false) :
    (authStep api).api = api := by
  obtain ⟨req, res, wld, nav, al, cl⟩ := api
  cases res with
  | none => rfl
  | some r =>
    simp only [authSuccess] at h
    simp only [authStep]
    rw [if_neg (by simp [h])]

/-- When the success test passes, `authStep` installs token and profile. -/
theorem authStep_store (api : ApiOutcome) (r : JVal) (hres : api.result = some r)
    (h : authSuccess api.result = true) :
    (authStep api).api.world = storeAuth r := by
  obtain ⟨req, res, wld, nav, al, cl⟩ := api
  change res = some r at hres
  subst hres
  change (jsTruthy r && jsTruthyU (jGet r "access")) = true at h
  simp only [authStep]
  rw [if_pos h]

/-! ### Claim theorems -/

/-- C2: for every endpoint call, a transport-level failure never escapes
`apiCall`: the rejection is caught, the user is alerted with the error
message, the error is logged, the state is untouched, and the call
resolves to null. -/
theorem C2_network_failure_resolves_null (w : World) (endpoint method : String)
    (data : JVal) (msg : String) :
    apiCall w endpoint method data (.networkError msg) =
      { request := buildRequest w endpoint method data, result := none, world := w,
        navigatedTo := none, alerts := ["Connection error: " ++ msg],
        consoleLog := some (.fetchError msg) } := rfl

/-- C3: the request built by `apiCall` carries an Authorization header
exactly when the session holds a truthy token, and a held string token is
attached verbatim as `Bearer <token>`. -/
theorem C3_authorization_header (w : World) (endpoint method : String)
    (data : JVal) (net : FetchOutcome) :
    (authHeaderOf ((apiCall w endpoint method data net).request) =
      (match w.session.authToken with
       | some v => if jsTruthy v then some ("Bearer " ++ jsToString v) else none
       | none => none))
    ∧ (∀ t : String, w.session.authToken = some (.str t) → t ≠ "" →
        authHeaderOf ((apiCall w endpoint method data net).request) =
          some ("Bearer " ++ t)) := by
  have hreq := apiCall_request w endpoint method data net
  constructor
  · rw [hreq]
    unfold authHeaderOf lookupHeader buildRequest
    cases w.session.authToken with
    | none => rfl
    | some v =>
      dsimp only
      by_cases hv : jsTruthy v = true
      · rw [hv]
        rfl
      · rw [Bool.not_eq_true] at hv
        rw [hv]
        rfl
  · intro t ht htne
    rw [hreq]
    unfold authHeaderOf lookupHeader buildRequest
    rw [ht]
    dsimp only
    have hv : jsTruthy (JVal.str t) = true := by
      simp [jsTruthy, htne]
    rw [hv]
    rfl

/-- Witness for C3 at a concrete world holding token `T1`. -/
theorem C3_authorization_header_witness :
    authHeaderOf ((apiCall
      { session := { authToken := some (.str "T1"), currentUser := none },
        storage := emptyStorage }
      "/bookings/my/" "GET" .null (.response 200 (.ok .null))).request) =
      some ("Bearer " ++ "T1") :=
  (C3_authorization_header
    { session := { authToken := some (.str "T1"), currentUser := none },
      storage := emptyStorage }
    "/bookings/my/" "GET" .null (.response 200 (.ok .null))).2
    "T1" rfl (by decide)

/-- C6 counterexample: the body argument `0` is not null, yet `apiCall`
omits the request body, because the source tests `if (data)` (truthiness),
not `data !== null`. -/
theorem C6_counterexample :
    (apiCall emptyWorld "/hostels/add/" "POST" (.num 0)
      (.response 200 (.ok .null))).request.body = none
    ∧ JVal.num 0 ≠ JVal.null :=
  ⟨rfl, fun h => JVal.noConfusion h⟩

/-- C6 amended: `apiCall` serializes and attaches the body exactly when
the body argument is truthy (in particular, for every non-null object),
and omits it when the argument is null or otherwise falsy. -/
theorem C6_body_attached_iff_truthy (w : World) (endpoint method : String)
    (data : JVal) (net : FetchOutcome) :
    (apiCall w endpoint method data net).request.body =
      (if jsTruthy data then some (jStringify data) else none) := by
  rw [apiCall_request]
  rfl

/-- C10: `apiCall` leaves the session and storage untouched unless the
fetch produced a 401 response with a JSON-parsable body (the only route
into the logout branch): success, other error statuses, transport
failures and body-parse failures all preserve the world. -/
theorem C10_frame (w : World) (endpoint method : String) (data : JVal)
    (net : FetchOutcome) (h : is401Json net = false) :
    (apiCall w endpoint method data net).world = w := by
  cases net with
  | networkError msg => rfl
  | response status body =>
    cases body with
    | fail msg => rfl
    | ok r =>
      simp only [apiCall]
      split
      · rename_i h401
        subst h401
        simp [is401Json] at h
      · split <;> rfl

/-- Witness for C10 on a transport failure. -/
theorem C10_frame_witness :
    (apiCall emptyWorld "/hostels/" "GET" .null (.networkError "down")).world =
      emptyWorld :=
  C10_frame emptyWorld "/hostels/" "GET" .null (.networkError "down") rfl

/-- A logged-in world used to exhibit the 401-with-non-JSON-body path. -/
def w401 : World :=
  { session := { authToken := some (.str "T1"),
                 currentUser := some (.obj [("email", .str "a@x.com")]) },
    storage := { access_token := some "T1",
                 user := some "\x7b\"email\":\"a@x.com\"\x7d" } }

/-- C1 counterexample: a 401 response whose body is not valid JSON does
not clear the session and does not navigate — `response.json()` is
awaited before the status check, so its rejection lands in the catch
branch (alert + null) with the session intact. -/
theorem C1_counterexample :
    (apiCall w401 "/hostels/" "GET" .null
      (.response 401 (.fail "Unexpected end of JSON input"))).world = w401
    ∧ (apiCall w401 "/hostels/" "GET" .null
        (.response 401 (.fail "Unexpected end of JSON input"))).navigatedTo = none
    ∧ (apiCall w401 "/hostels/" "GET" .null
        (.response 401 (.fail "Unexpected end of JSON input"))).result = none :=
  ⟨rfl, rfl, rfl⟩

/-- C1 amended: on a 401 response whose body parses as JSON, `apiCall` —
for any endpoint, method and body — clears the in-memory session and both
storage fields, navigates to the login page, and resolves to null with no
further processing. -/
theorem C1_401_clears_session (w : World) (endpoint method : String)
    (data : JVal) (b : JVal) :
    apiCall w endpoint method data (.response 401 (.ok b)) =
      { request := buildRequest w endpoint method data, result := none,
        world := { session := { authToken := none, currentUser := none },
                   storage := { access_token := none, user := none } },
        navigatedTo := some "/login.html", alerts := [], consoleLog := none } := rfl

/-- C8 counterexample: a 500 response whose body is not valid JSON is not
logged as a parsed API error; the `response.json()` rejection lands in the
catch branch, which alerts the user instead. -/
theorem C8_counterexample :
    (apiCall emptyWorld "/hostels/" "GET" .null
      (.response 500 (.fail "boom"))).consoleLog = some (.fetchError "boom")
    ∧ (apiCall emptyWorld "/hostels/" "GET" .null
        (.response 500 (.fail "boom"))).alerts = ["Connection error: boom"]
    ∧ (apiCall emptyWorld "/hostels/" "GET" .null
        (.response 500 (.fail "boom"))).result = none :=
  ⟨rfl, rfl, rfl⟩

/-- C8 amended: on a non-2xx, non-401 response whose body parses as JSON,
`apiCall` logs the parsed body to the console and resolves to null, with
no alert, no navigation and no state change. -/
theorem C8_error_status_logged (w : World) (endpoint method : String)
    (data : JVal) (status : Nat) (b : JVal) (h401 : status ≠ 401)
    (hok : ¬(200 ≤ status ∧ status ≤ 299)) :
    apiCall w endpoint method data (.response status (.ok b)) =
      { request := buildRequest w endpoint method data, result := none, world := w,
        navigatedTo := none, alerts := [], consoleLog := some (.apiError b) } := by
  simp only [apiCall]
  rw [if_neg h401, if_neg hok]

/-- Witness for C8 at a concrete 404 response. -/
theorem C8_error_status_logged_witness :
    apiCall emptyWorld "/hostels/" "GET" .null
      (.response 404 (.ok (.str "not found"))) =
      { request := buildRequest emptyWorld "/hostels/" "GET" .null,
        result := none, world := emptyWorld, navigatedTo := none, alerts := [],
        consoleLog := some (.apiError (.str "not found")) } :=
  C8_error_status_logged emptyWorld "/hostels/" "GET" .null 404 (.str "not found")
    (by decide) (by decide)

/-- Storage holding a token plus a malformed serialized profile. -/
def badStoreWorld : World :=
  { session := emptySession,
    storage := { access_token := some "T1", user := some "\x7boops" } }

/-- C7 counterexample: with a stored token and a malformed stored profile,
`initAuth` is not a no-op — it assigns the token to the in-memory session
and only then throws from `JSON.parse`, so the session does not stay
empty. -/
theorem C7_counterexample :
    (initAuth badStoreWorld).threw = true
    ∧ (initAuth badStoreWorld).world.session.authToken = some (.str "T1")
    ∧ jParse "\x7boops" = none :=
  ⟨rfl, rfl, rfl⟩

/-- C7 amended: `initAuth` is a no-op when either stored value is absent
or empty; when both are present (and non-empty) it sets the session if
the profile parses, and otherwise sets the token, leaves the user as it
was, and lets the parse exception escape. -/
theorem C7_initAuth_cases (w : World) :
    ((strTruthy w.storage.access_token = false ∨ strTruthy w.storage.user = false) →
      initAuth w = { world := w, threw := false })
    ∧ (∀ tok usr, w.storage.access_token = some tok → w.storage.user = some usr →
        tok ≠ "" → usr ≠ "" →
        ((∀ p, jParse usr = some p →
            initAuth w =
              { world :=
                  { w with
                    session := { authToken := some (.str tok), currentUser := some p } },
                threw := false })
         ∧ (jParse usr = none →
            initAuth w =
              { world :=
                  { w with
                    session := { w.session with authToken := some (.str tok) } },
                threw := true }))) := by
  constructor
  · intro h
    have hc : (strTruthy w.storage.access_token && strTruthy w.storage.user) = false := by
      rcases h with h | h <;> simp [h]
    unfold initAuth
    rw [hc]
    rfl
  · intro tok usr htok husr htokne husrne
    have hc : (strTruthy w.storage.access_token && strTruthy w.storage.user) = true := by
      simp [htok, husr, strTruthy, htokne, husrne]
    constructor
    · intro p hp
      unfold initAuth
      rw [hc, htok, husr]
      dsimp only [Option.getD]
      rw [hp]
      rfl
    · intro hp
      unfold initAuth
      rw [hc, htok, husr]
      dsimp only [Option.getD]
      rw [hp]
      rfl

/-- Storage holding a token plus a well-formed serialized profile. -/
def goodStoreWorld : World :=
  { session := emptySession,
    storage := { access_token := some "T1",
                 user := some "\x7b\"email\":\"a@x.com\"\x7d" } }

/-- Witness for C7 restoring a stored session. -/
theorem C7_initAuth_cases_witness :
    initAuth goodStoreWorld =
      { world :=
          { goodStoreWorld with
            session := { authToken := some (.str "T1"),
                         currentUser := some (.obj [("email", .str "a@x.com")]) } },
        threw := false } :=
  ((C7_initAuth_cases goodStoreWorld).2 "T1" "\x7b\"email\":\"a@x.com\"\x7d"
    rfl rfl (by decide) (by decide)).1
    (.obj [("email", .str "a@x.com")]) rfl

/-- A world already logged in with an old token. -/
def oldWorld : World :=
  { session := { authToken := some (.str "OLD"),
                 currentUser := some (.obj [("email", .str "old@x.com")]) },
    storage := { access_token := some "OLD",
                 user := some "\x7b\"email\":\"old@x.com\"\x7d" } }

/-- C9 counterexample: a login attempt answered with 401 returns `false`,
yet the session and storage are not left unchanged — the underlying
`apiCall` already cleared them — so failure is not atomic. -/
theorem C9_counterexample :
    (login oldWorld "a@x.com" "pw"
      (.response 401 (.ok (.obj [("detail", .str "expired")])))).ret = false
    ∧ (login oldWorld "a@x.com" "pw"
        (.response 401 (.ok (.obj [("detail", .str "expired")])))).api.world.session.authToken = none
    ∧ (login oldWorld "a@x.com" "pw"
        (.response 401 (.ok (.obj [("detail", .str "expired")])))).api.world.storage.access_token = none
    ∧ oldWorld.session.authToken = some (.str "OLD")
    ∧ oldWorld.storage.access_token = some "OLD"
    ∧ (login oldWorld "a@x.com" "pw"
        (.response 401 (.ok (.obj [("detail", .str "expired")])))).api.world.session.authToken
        ≠ oldWorld.session.authToken :=
  ⟨rfl, rfl, rfl, rfl, rfl, fun h => Option.noConfusion h⟩

/-- C9 amended: `login` and `register` return a boolean — `true` exactly
when the request's result passes the `result && result.access` test, in
which case they install the token and profile in session and storage;
otherwise `false`, and they add no mutation of their own, leaving the
world exactly as the underlying request left it (which is unchanged except
when that request received a 401 with a JSON body and already cleared the
session). -/
theorem C9_auth_boolean_and_frame (w : World)
    (email password name role : String) (net : FetchOutcome) :
    ((login w email password net).ret =
      authSuccess (apiCall w "/auth/login/" "POST" (loginBody email password) net).result)
    ∧ ((register w email password name role net).ret =
      authSuccess (apiCall w "/auth/register/" "POST"
        (registerBody email password name role) net).result)
    ∧ ((login w email password net).ret = false →
        (login w email password net).api =
          apiCall w "/auth/login/" "POST" (loginBody email password) net)
    ∧ ((register w email password name role net).ret = false →
        (register w email password name role net).api =
          apiCall w "/auth/register/" "POST" (registerBody email password name role) net)
    ∧ (∀ r, (apiCall w "/auth/login/" "POST" (loginBody email password) net).result = some r →
        authSuccess (some r) = true →
        (login w email password net).api.world = storeAuth r)
    ∧ (∀ r, (apiCall w "/auth/register/" "POST"
          (registerBody email password name role) net).result = some r →
        authSuccess (some r) = true →
        (register w email password name role net).api.world = storeAuth r) := by
  refine ⟨authStep_ret _, authStep_ret _, ?_, ?_, ?_, ?_⟩
  · intro h
    exact authStep_frame _ ((authStep_ret _).symm.trans h)
  · intro h
    exact authStep_frame _ ((authStep_ret _).symm.trans h)
  · intro r hres h
    exact authStep_store _ r hres (by rw [hres]; exact h)
  · intro r hres h
    exact authStep_store _ r hres (by rw [hres]; exact h)

/-- The mock successful auth response body used in witnesses. -/
def mockAuthBody : JVal :=
  .obj [("access", .str "T1"), ("user", .obj [("email", .str "a@x.com")])]

/-- Witness for C9: a successful login installs the token and profile. -/
theorem C9_auth_boolean_and_frame_witness :
    (login emptyWorld "a@x.com" "pw" (.response 200 (.ok mockAuthBody))).api.world =
      storeAuth mockAuthBody :=
  (C9_auth_boolean_and_frame emptyWorld "a@x.com" "pw" "n" "student"
    (.response 200 (.ok mockAuthBody))).2.2.2.2.1 mockAuthBody rfl rfl

/-- C4 counterexample: `login` — listed as an endpoint wrapper — is not a
pure pass-through: on a successful response it returns the boolean `true`
rather than the parsed body, and it mutates the session, although the
underlying `apiCall` returned the body and left the world unchanged. -/
theorem C4_counterexample :
    (login emptyWorld "a@x.com" "pw" (.response 200 (.ok mockAuthBody))).ret = true
    ∧ (login emptyWorld "a@x.com" "pw"
        (.response 200 (.ok mockAuthBody))).api.world.session.authToken =
        some (.str "T1")
    ∧ emptyWorld.session.authToken = none
    ∧ (apiCall emptyWorld "/auth/login/" "POST" (loginBody "a@x.com" "pw")
        (.response 200 (.ok mockAuthBody))).world = emptyWorld
    ∧ (apiCall emptyWorld "/auth/login/" "POST" (loginBody "a@x.com" "pw")
        (.response 200 (.ok mockAuthBody))).result = some mockAuthBody
    ∧ (login emptyWorld "a@x.com" "pw"
        (.response 200 (.ok mockAuthBody))).api.world.session.authToken
        ≠ emptyWorld.session.authToken :=
  ⟨rfl, rfl, rfl, rfl, rfl, fun h => Option.noConfusion h⟩

/-- C4 amended: every endpoint wrapper other than `login` and `register`
is a pure pass-through — it delegates to `apiCall` with its fixed
documented method and path (interpolating at most one id), forwards the
optional body verbatim, and returns the outcome unchanged; `login` and
`register` also issue exactly one request with the documented fixed
method, path and constructed body, but post-process the result. -/
theorem C4_wrappers_passthrough (w : World) (net : FetchOutcome) (i : Nat)
    (d : JVal) (email password name role : String) :
    (getAllHostels w net = apiCall w "/hostels/" "GET" .null net
      ∧ (getAllHostels w net).request.method = "GET"
      ∧ (getAllHostels w net).request.url = "/api/hostels/"
      ∧ (getAllHostels w net).request.body = none)
    ∧ (getHostelDetail w i net = apiCall w ("/hostels/" ++ toString i ++ "/") "GET" .null net
      ∧ (getHostelDetail w i net).request.method = "GET"
      ∧ (getHostelDetail w i net).request.url = "/api/hostels/" ++ toString i ++ "/"
      ∧ (getHostelDetail w i net).request.body = none)
    ∧ (addHostel w d net = apiCall w "/hostels/add/" "POST" d net
      ∧ (addHostel w d net).request.method = "POST"
      ∧ (addHostel w d net).request.url = "/api/hostels/add/"
      ∧ (addHostel w d net).request.body =
          (if jsTruthy d then some (jStringify d) else none))
    ∧ (updateHostel w i d net = apiCall w ("/hostels/" ++ toString i ++ "/update/") "PUT" d net
      ∧ (updateHostel w i d net).request.method = "PUT"
      ∧ (updateHostel w i d net).request.url = "/api/hostels/" ++ toString i ++ "/update/"
      ∧ (updateHostel w i d net).request.body =
          (if jsTruthy d then some (jStringify d) else none))
    ∧ (getMyHostels w net = apiCall w "/hostels/my/" "GET" .null net
      ∧ (getMyHostels w net).request.method = "GET"
      ∧ (getMyHostels w net).request.url = "/api/hostels/my/"
      ∧ (getMyHostels w net).request.body = none)
    ∧ (getHostelRooms w i net = apiCall w ("/rooms/hostel/" ++ toString i ++ "/") "GET" .null net
      ∧ (getHostelRooms w i net).request.method = "GET"
      ∧ (getHostelRooms w i net).request.url = "/api/rooms/hostel/" ++ toString i ++ "/"
      ∧ (getHostelRooms w i net).request.body = none)
    ∧ (addRoom w d net = apiCall w "/rooms/add/" "POST" d net
      ∧ (addRoom w d net).request.method = "POST"
      ∧ (addRoom w d net).request.url = "/api/rooms/add/"
      ∧ (addRoom w d net).request.body =
          (if jsTruthy d then some (jStringify d) else none))
    ∧ (updateRoom w i d net = apiCall w ("/rooms/" ++ toString i ++ "/update/") "PUT" d net
      ∧ (updateRoom w i d net).request.method = "PUT"
      ∧ (updateRoom w i d net).request.url = "/api/rooms/" ++ toString i ++ "/update/"
      ∧ (updateRoom w i d net).request.body =
          (if jsTruthy d then some (jStringify d) else none))
    ∧ (bookHostel w d net = apiCall w "/bookings/book/" "POST" d net
      ∧ (bookHostel w d net).request.method = "POST"
      ∧ (bookHostel w d net).request.url = "/api/bookings/book/"
      ∧ (bookHostel w d net).request.body =
          (if jsTruthy d then some (jStringify d) else none))
    ∧ (getMyBookings w net = apiCall w "/bookings/my/" "GET" .null net
      ∧ (getMyBookings w net).request.method = "GET"
      ∧ (getMyBookings w net).request.url = "/api/bookings/my/"
      ∧ (getMyBookings w net).request.body = none)
    ∧ (getOwnerBookings w i net = apiCall w ("/bookings/owner/" ++ toString i ++ "/") "GET" .null net
      ∧ (getOwnerBookings w i net).request.method = "GET"
      ∧ (getOwnerBookings w i net).request.url = "/api/bookings/owner/" ++ toString i ++ "/"
      ∧ (getOwnerBookings w i net).request.body = none)
    ∧ (approveBooking w i d net = apiCall w ("/bookings/" ++ toString i ++ "/approve/") "POST" d net
      ∧ (approveBooking w i d net).request.method = "POST"
      ∧ (approveBooking w i d net).request.url = "/api/bookings/" ++ toString i ++ "/approve/"
      ∧ (approveBooking w i d net).request.body =
          (if jsTruthy d then some (jStringify d) else none))
    ∧ (rejectBooking w i d net = apiCall w ("/bookings/" ++ toString i ++ "/reject/") "POST" d net
      ∧ (rejectBooking w i d net).request.method = "POST"
      ∧ (rejectBooking w i d net).request.url = "/api/bookings/" ++ toString i ++ "/reject/"
      ∧ (rejectBooking w i d net).request.body =
          (if jsTruthy d then some (jStringify d) else none))
    ∧ (reportIssue w d net = apiCall w "/issues/report/" "POST" d net
      ∧ (reportIssue w d net).request.method = "POST"
      ∧ (reportIssue w d net).request.url = "/api/issues/report/"
      ∧ (reportIssue w d net).request.body =
          (if jsTruthy d then some (jStringify d) else none))
    ∧ (getOwnerIssues w i net = apiCall w ("/issues/owner/" ++ toString i ++ "/") "GET" .null net
      ∧ (getOwnerIssues w i net).request.method = "GET"
      ∧ (getOwnerIssues w i net).request.url = "/api/issues/owner/" ++ toString i ++ "/"
      ∧ (getOwnerIssues w i net).request.body = none)
    ∧ (resolveIssue w i d net = apiCall w ("/issues/" ++ toString i ++ "/resolve/") "POST" d net
      ∧ (resolveIssue w i d net).request.method = "POST"
      ∧ (resolveIssue w i d net).request.url = "/api/issues/" ++ toString i ++ "/resolve/"
      ∧ (resolveIssue w i d net).request.body =
          (if jsTruthy d then some (jStringify d) else none))
    ∧ (sendNotice w d net = apiCall w "/notices/send/" "POST" d net
      ∧ (sendNotice w d net).request.method = "POST"
      ∧ (sendNotice w d net).request.url = "/api/notices/send/"
      ∧ (sendNotice w d net).request.body =
          (if jsTruthy d then some (jStringify d) else none))
    ∧ (getNotices w i net = apiCall w ("/notices/" ++ toString i ++ "/") "GET" .null net
      ∧ (getNotices w i net).request.method = "GET"
      ∧ (getNotices w i net).request.url = "/api/notices/" ++ toString i ++ "/"
      ∧ (getNotices w i net).request.body = none)
    ∧ (getMyPayments w net = apiCall w "/payments/my/" "GET" .null net
      ∧ (getMyPayments w net).request.method = "GET"
      ∧ (getMyPayments w net).request.url = "/api/payments/my/"
      ∧ (getMyPayments w net).request.body = none)
    ∧ (makePayment w d net = apiCall w "/payments/make/" "POST" d net
      ∧ (makePayment w d net).request.method = "POST"
      ∧ (makePayment w d net).request.url = "/api/payments/make/"
      ∧ (makePayment w d net).request.body =
          (if jsTruthy d then some (jStringify d) else none))
    ∧ (recordPayment w d net = apiCall w "/payments/record/" "POST" d net
      ∧ (recordPayment w d net).request.method = "POST"
      ∧ (recordPayment w d net).request.url = "/api/payments/record/"
      ∧ (recordPayment w d net).request.body =
          (if jsTruthy d then some (jStringify d) else none))
    ∧ (getHostelPayments w i net = apiCall w ("/payments/hostel/" ++ toString i ++ "/") "GET" .null net
      ∧ (getHostelPayments w i net).request.method = "GET"
      ∧ (getHostelPayments w i net).request.url = "/api/payments/hostel/" ++ toString i ++ "/"
      ∧ (getHostelPayments w i net).request.body = none)
    ∧ (getStudentDashboard w net = apiCall w "/dashboard/student/" "GET" .null net
      ∧ (getStudentDashboard w net).request.method = "GET"
      ∧ (getStudentDashboard w net).request.url = "/api/dashboard/student/"
      ∧ (getStudentDashboard w net).request.body = none)
    ∧ (getOwnerDashboard w net = apiCall w "/dashboard/owner/" "GET" .null net
      ∧ (getOwnerDashboard w net).request.method = "GET"
      ∧ (getOwnerDashboard w net).request.url = "/api/dashboard/owner/"
      ∧ (getOwnerDashboard w net).request.body = none)
    ∧ (getHostelStats w i net = apiCall w ("/analytics/hostel/" ++ toString i ++ "/") "GET" .null net
      ∧ (getHostelStats w i net).request.method = "GET"
      ∧ (getHostelStats w i net).request.url = "/api/analytics/hostel/" ++ toString i ++ "/"
      ∧ (getHostelStats w i net).request.body = none)
    ∧ ((login w email password net).api.request =
        buildRequest w "/auth/login/" "POST" (loginBody email password))
    ∧ ((register w email password name role net).api.request =
        buildRequest w "/auth/register/" "POST" (registerBody email password name role)) := by
  repeat' apply And.intro
  all_goals first
    | rfl
    | exact (authStep_request _).trans (apiCall_request _ _ _ _ _)
    | (simp only [getAllHostels, getHostelDetail, addHostel, updateHostel, getMyHostels,
        getHostelRooms, addRoom, updateRoom, bookHostel, getMyBookings, getOwnerBookings,
        approveBooking, rejectBooking, reportIssue, getOwnerIssues, resolveIssue, sendNotice,
        getNotices, getMyPayments, makePayment, recordPayment, getHostelPayments,
        getStudentDashboard, getOwnerDashboard, getHostelStats, apiCall_request]
       try rfl)

/-- A successful auth response body `{access: t, user: u}`. -/
def authResponse (t : String) (u : JVal) : JVal :=
  .obj [("access", .str t), ("user", u)]

/-- The world after a successful login with token `t` and profile `u`. -/
def loggedInWorld (t : String) (u : JVal) : World :=
  { session := { authToken := some (.str t), currentUser := some u },
    storage := { access_token := some t, user := some (jStringify u) } }

/-- C5: a login or register answered 2xx with `{access: t, user: u}`
returns true, sets the in-memory session, and persists token and profile,
such that after a simulated page reload `initAuth` restores the same
session; a `getMyBookings` call from the restored world then sends
`Authorization: Bearer t` to `GET /api/bookings/my/`. -/
theorem C5_auth_persist_roundtrip (w : World)
    (email password name role t : String)
    (u : JVal) (status : Nat) (net2 : FetchOutcome)
    (hok : 200 ≤ status ∧ status ≤ 299) (ht : t ≠ "")
    (hu : jParse (jStringify u) = some u) :
    (login w email password (.response status (.ok (authResponse t u)))).ret = true
    ∧ (login w email password (.response status (.ok (authResponse t u)))).api.world =
        loggedInWorld t u
    ∧ (register w email password name role
        (.response status (.ok (authResponse t u)))).ret = true
    ∧ (register w email password name role
        (.response status (.ok (authResponse t u)))).api.world = loggedInWorld t u
    ∧ initAuth (reload (loggedInWorld t u)) =
        { world := loggedInWorld t u, threw := false }
    ∧ authHeaderOf ((getMyBookings (loggedInWorld t u) net2).request) =
        some ("Bearer " ++ t)
    ∧ (getMyBookings (loggedInWorld t u) net2).request.method = "GET"
    ∧ (getMyBookings (loggedInWorld t u) net2).request.url = "/api/bookings/my/" := by
  have h401 : status ≠ 401 := by omega
  have hapi := apiCall_ok w "/auth/login/" "POST" (loginBody email password)
    status (authResponse t u) h401 hok
  have hapiR := apiCall_ok w "/auth/register/" "POST"
    (registerBody email password name role) status (authResponse t u) h401 hok
  have hsucc : authSuccess (some (authResponse t u)) = true := by
    simp [authSuccess, authResponse, jsTruthy, jsTruthyU, jGet, lookupField, ht]
  have hv : jsTruthy (JVal.str t) = true := by
    simp [jsTruthy, ht]
  have hsu : jStringify u ≠ "" := by
    intro he
    rw [he] at hu
    rw [show jParse "" = none from rfl] at hu
    exact Option.noConfusion hu
  refine ⟨?_, ?_, ?_, ?_, ?_, ?_, ?_, ?_⟩
  · unfold login
    rw [authStep_ret, hapi]
    exact hsucc
  · unfold login
    refine (authStep_store _ (authResponse t u) (by rw [hapi]) ?_).trans ?_
    · rw [hapi]
      exact hsucc
    · rfl
  · unfold register
    rw [authStep_ret, hapiR]
    exact hsucc
  · unfold register
    refine (authStep_store _ (authResponse t u) (by rw [hapiR]) ?_).trans ?_
    · rw [hapiR]
      exact hsucc
    · rfl
  · unfold initAuth
    have hc : (strTruthy (reload (loggedInWorld t u)).storage.access_token &&
        strTruthy (reload (loggedInWorld t u)).storage.user) = true := by
      simp [reload, loggedInWorld, strTruthy, ht, hsu]
    rw [hc]
    dsimp only [reload, loggedInWorld, Option.getD]
    rw [hu]
    rfl
  · unfold getMyBookings
    rw [apiCall_request]
    unfold authHeaderOf lookupHeader buildRequest
    dsimp only [loggedInWorld]
    rw [hv]
    rfl
  · unfold getMyBookings
    rw [apiCall_request]
    rfl
  · unfold getMyBookings
    rw [apiCall_request]
    rfl

/-- Witness for C5 at the spec scenario: token `T1`, profile
`{email: "a@x.com"}`, backend answering 200, for both login and
register. -/
theorem C5_auth_persist_roundtrip_witness :
    (login emptyWorld "a@x.com" "pw" (.response 200 (.ok
      (authResponse "T1" (.obj [("email", .str "a@x.com")]))))).ret = true
    ∧ (login emptyWorld "a@x.com" "pw" (.response 200 (.ok
        (authResponse "T1" (.obj [("email", .str "a@x.com")]))))).api.world =
        loggedInWorld "T1" (.obj [("email", .str "a@x.com")])
    ∧ (register emptyWorld "a@x.com" "pw" "A" "student" (.response 200 (.ok
        (authResponse "T1" (.obj [("email", .str "a@x.com")]))))).ret = true
    ∧ (register emptyWorld "a@x.com" "pw" "A" "student" (.response 200 (.ok
        (authResponse "T1" (.obj [("email", .str "a@x.com")]))))).api.world =
        loggedInWorld "T1" (.obj [("email", .str "a@x.com")])
    ∧ initAuth (reload (loggedInWorld "T1" (.obj [("email", .str "a@x.com")]))) =
        { world := loggedInWorld "T1" (.obj [("email", .str "a@x.com")]),
          threw := false }
    ∧ authHeaderOf ((getMyBookings (loggedInWorld "T1"
        (.obj [("email", .str "a@x.com")])) (.response 200 (.ok (.arr [])))).request) =
        some ("Bearer " ++ "T1")
    ∧ (getMyBookings (loggedInWorld "T1" (.obj [("email", .str "a@x.com")]))
        (.response 200 (.ok (.arr [])))).request.method = "GET"
    ∧ (getMyBookings (loggedInWorld "T1" (.obj [("email", .str "a@x.com")]))
        (.response 200 (.ok (.arr [])))).request.url = "/api/bookings/my/" :=
  C5_auth_persist_roundtrip emptyWorld "a@x.com" "pw" "A" "student" "T1"
    (.obj [("email", .str "a@x.com")]) 200 (.response 200 (.ok (.arr [])))
    (by decide) (by decide) rfl
